import Mathlib

/-!
# Verification of the Gilbarco two-wire pump controller

Shallow embedding of the wire-format codec (`GilbarcoTwoWireProtocol` in
`pump_controller.py`), the device-session operations (`PumpController`),
and the discovery sweep (`PumpManager` in `pump_manager.py`), together
with theorems settling the specification claims about them.

Bytes are modelled as `Nat` (Python `bytes` elements are `0..255`; the
bit operations `&&&`, `>>>` mirror Python's `&`, `>>`).  Python `float`
results of the BCD decoders are modelled as exact rationals `ℚ`: every
decoded value is an integer divided by a power-of-ten scale, exactly the
arithmetic the source performs before the final float conversion.
Fallible Python code (raising `ValueError`) is modelled with
`Except String`.
-/

/-- The externally visible pump state enum (`PumpStatus` in `models.py`). -/
inductive PumpStatus where
  | IDLE
  | CALLING
  | AUTHORIZED
  | DISPENSING
  | COMPLETE
  | STOPPED
  | ERROR
  | OFFLINE
deriving DecidableEq, Repr

namespace Gilbarco

/- Command codes (`pump_controller.py` lines 19-27). -/

def CMD_STATUS : Nat := 0x0

def CMD_AUTHORIZE : Nat := 0x1

def CMD_SEND_DATA : Nat := 0x2

def CMD_STOP : Nat := 0x3

def CMD_TRANSACTION : Nat := 0x4

/- Status codes from pump responses (`pump_controller.py` lines 30-38). -/

def STATUS_DATA_ERROR : Nat := 0x0

def STATUS_OFF : Nat := 0x6

def STATUS_CALL : Nat := 0x7

def STATUS_AUTH : Nat := 0x8

def STATUS_BUSY : Nat := 0x9

def STATUS_PEOT : Nat := 0xA

def STATUS_FEOT : Nat := 0xB

def STATUS_STOP : Nat := 0xC

def STATUS_SEND_DATA : Nat := 0xD

/- Data control words (`pump_controller.py` lines 41-48). -/

def DCW_STX : Nat := 0xFF

def DCW_ETX : Nat := 0xF0

def DCW_LRC_NEXT : Nat := 0xFB

def DCW_PUMP_ID_NEXT : Nat := 0xF8

def DCW_GRADE_NEXT : Nat := 0xF6

def DCW_PPU_NEXT : Nat := 0xF7

def DCW_VOLUME_NEXT : Nat := 0xF9

def DCW_MONEY_NEXT : Nat := 0xFA

/-- `pump_id_to_nibble` (`pump_controller.py` lines 56-64): convert a pump
ID 1-16 to the protocol nibble, address 16 encoding as nibble 0. -/
def pump_id_to_nibble (pump_id : Nat) : Except String Nat :=
  if pump_id = 16 then .ok 0x0
  else if 1 ≤ pump_id ∧ pump_id ≤ 15 then .ok pump_id
  else .error "Invalid pump ID"

/-- `nibble_to_pump_id` (`pump_controller.py` lines 66-74): convert a
protocol nibble back to the pump ID, nibble 0 decoding as address 16. -/
def nibble_to_pump_id (nibble : Nat) : Except String Nat :=
  if nibble = 0x0 then .ok 16
  else if 1 ≤ nibble ∧ nibble ≤ 15 then .ok nibble
  else .error "Invalid pump nibble"

/-- `build_status_command` (`pump_controller.py` lines 76-81). -/
def build_status_command (pump_id : Nat) : Except String (List Nat) :=
  (pump_id_to_nibble pump_id).map fun pump_nibble =>
    [(CMD_STATUS <<< 4) ||| pump_nibble]

/-- `build_authorize_command` (`pump_controller.py` lines 83-88). -/
def build_authorize_command (pump_id : Nat) : Except String (List Nat) :=
  (pump_id_to_nibble pump_id).map fun pump_nibble =>
    [(CMD_AUTHORIZE <<< 4) ||| pump_nibble]

/-- `build_stop_command` (`pump_controller.py` lines 90-95). -/
def build_stop_command (pump_id : Nat) : Except String (List Nat) :=
  (pump_id_to_nibble pump_id).map fun pump_nibble =>
    [(CMD_STOP <<< 4) ||| pump_nibble]

/-- `build_transaction_request` (`pump_controller.py` lines 97-102). -/
def build_transaction_request (pump_id : Nat) : Except String (List Nat) :=
  (pump_id_to_nibble pump_id).map fun pump_nibble =>
    [(CMD_TRANSACTION <<< 4) ||| pump_nibble]

/-- `build_all_stop_command` (`pump_controller.py` lines 104-107): the
fixed broadcast byte `0xFC`, with no address. -/
def build_all_stop_command : List Nat := [0xFC]

/-- `parse_status_response` (`pump_controller.py` lines 109-120): a status
reply must be exactly one byte; its high nibble is the status code and
its low nibble decodes to the pump ID. -/
def parse_status_response (response : List Nat) : Except String (Nat × Nat) :=
  match response with
  | [word] =>
      let status := (word >>> 4) &&& 0xF
      let pump_nibble := word &&& 0xF
      (nibble_to_pump_id pump_nibble).map fun pump_id => (pump_id, status)
  | _ => .error "Invalid status response length"

/-- `status_code_to_enum` (`pump_controller.py` lines 122-136): the
dictionary lookup with default `OFFLINE`. -/
def status_code_to_enum (status_code : Nat) : PumpStatus :=
  if status_code = STATUS_DATA_ERROR then .ERROR
  else if status_code = STATUS_OFF then .IDLE
  else if status_code = STATUS_CALL then .CALLING
  else if status_code = STATUS_AUTH then .AUTHORIZED
  else if status_code = STATUS_BUSY then .DISPENSING
  else if status_code = STATUS_PEOT then .COMPLETE
  else if status_code = STATUS_FEOT then .COMPLETE
  else if status_code = STATUS_STOP then .STOPPED
  else if status_code = STATUS_SEND_DATA then .ERROR
  else .OFFLINE

/-- The digit-accumulation loop shared verbatim by `parse_bcd_volume`,
`parse_bcd_money` and `parse_bcd_ppu` (`pump_controller.py` lines
208-212, 218-221, 227-230): `for i, byte in enumerate(bcd_bytes):
digit = byte & 0xF; acc += digit * (10 ** i)`. -/
def bcd_digit_sum (bcd_bytes : List Nat) : Nat :=
  bcd_bytes.enum.foldl (fun acc p => acc + (p.2 &&& 0xF) * 10 ^ p.1) 0

/-- `parse_bcd_volume` (`pump_controller.py` lines 205-213): the digit sum
(least-significant digit first) divided by 1000. -/
def parse_bcd_volume (bcd_bytes : List Nat) : ℚ :=
  (bcd_digit_sum bcd_bytes : ℚ) / 1000

/-- `parse_bcd_money` (`pump_controller.py` lines 215-222): the digit sum
divided by 100. -/
def parse_bcd_money (bcd_bytes : List Nat) : ℚ :=
  (bcd_digit_sum bcd_bytes : ℚ) / 100

/-- `parse_bcd_ppu` (`pump_controller.py` lines 224-231): the digit sum
divided by 1000. -/
def parse_bcd_ppu (bcd_bytes : List Nat) : ℚ :=
  (bcd_digit_sum bcd_bytes : ℚ) / 1000

/-- The dictionary built by `parse_transaction_data`: each key is present
exactly when its section was decoded. -/
structure TransactionRecord where
  pump_data : Option (List Nat) := none
  grade : Option Nat := none
  volume : Option ℚ := none
  money : Option ℚ := none
  ppu : Option ℚ := none
deriving DecidableEq, Repr

/-- The `while pos < len(data_block)` loop of `parse_transaction_data`
(`pump_controller.py` lines 162-198), one call per loop iteration.  The
list argument is the suffix of the frame from the current position; each
branch that finds its payload in range consumes it with `drop`, a branch
whose payload would run past the end leaves the position unchanged (the
Python `if`-guards fail and the loop continues at the byte after the
DCW), and an unrecognized DCW consumes exactly one payload byte. -/
def parse_transaction_loop : List Nat → TransactionRecord → TransactionRecord
  | [], result => result
  | dcw :: rest, result =>
    if dcw = DCW_ETX then result
    else if dcw = DCW_PUMP_ID_NEXT then
      if 5 ≤ rest.length then
        parse_transaction_loop (rest.drop 5) { result with pump_data := some (rest.take 5) }
      else
        parse_transaction_loop rest result
    else if dcw = DCW_GRADE_NEXT then
      match rest with
      | b :: rest2 => parse_transaction_loop rest2 { result with grade := some (b &&& 0xF) }
      | [] => parse_transaction_loop [] result
    else if dcw = DCW_VOLUME_NEXT then
      if 6 ≤ rest.length then
        parse_transaction_loop (rest.drop 6)
          { result with volume := some (parse_bcd_volume (rest.take 6)) }
      else
        parse_transaction_loop rest result
    else if dcw = DCW_MONEY_NEXT then
      if 6 ≤ rest.length then
        parse_transaction_loop (rest.drop 6)
          { result with money := some (parse_bcd_money (rest.take 6)) }
      else
        parse_transaction_loop rest result
    else if dcw = DCW_PPU_NEXT then
      if 4 ≤ rest.length then
        parse_transaction_loop (rest.drop 4)
          { result with ppu := some (parse_bcd_ppu (rest.take 4)) }
      else
        parse_transaction_loop rest result
    else
      parse_transaction_loop (rest.drop 1) result
termination_by data _ => data.length
decreasing_by
  all_goals simp [List.length_drop]
  all_goals omega

/-- `parse_transaction_data` (`pump_controller.py` lines 146-203): reject
inputs shorter than 10 bytes or not starting with STX, then run the
section loop; the surrounding `try/except` never fires because no indexed
access is out of range once the length guard has passed. -/
def parse_transaction_data (data_block : List Nat) : Option TransactionRecord :=
  if data_block.length < 10 then none
  else
    match data_block with
    | [] => none
    | b :: rest => if b ≠ DCW_STX then none else some (parse_transaction_loop rest {})

/-- The status outcome of `PumpController.get_status` (`pump_controller.py`
lines 530-593), as a function of the transport reply.  `none` models a
transport exchange that produced no reply (or raised, which the method
catches); the source maps that to `OFFLINE` (the outer `except` path
producing `ERROR` only fires for pre-exchange faults).  A non-empty reply
is parsed with `parse_status_response`; a parse failure (length ≠ 1)
yields `ERROR`, success yields `status_code_to_enum` of the high
nibble. -/
def get_status_state (reply : Option (List Nat)) : PumpStatus :=
  match reply with
  | some response =>
      if 1 ≤ response.length then
        match parse_status_response response with
        | .ok parsed => status_code_to_enum parsed.2
        | .error _ => .ERROR
      else .OFFLINE
  | none => .OFFLINE

/-- `PumpController.authorize_pump` (`pump_controller.py` lines 639-667):
send the Authorize command fire-and-forget, settle, poll status, and
report success iff the polled state is `AUTHORIZED` or `DISPENSING`; any
exception along the way is caught and yields `false`.  `send_ok` models
whether the send (and everything before the status poll) succeeded;
`reply` is the transport reply to the subsequent status poll.  The
`time.sleep(0.1)` settle delay has no observable value-level effect and
is not modelled. -/
def authorize_pump (send_ok : Bool) (reply : Option (List Nat)) : Bool :=
  if send_ok then
    let s := get_status_state reply
    [PumpStatus.AUTHORIZED, PumpStatus.DISPENSING].contains s
  else false

/-- A discovered pump record, the fields of `PumpInfo` (`models.py` lines
30-36) that discovery decides (`pump_id`, `com_port`, `address`). -/
structure PumpInfo where
  pump_id : Nat
  com_port : String
  address : Nat
deriving DecidableEq, Repr

/-- `PumpManager._test_pump_connection` (`pump_manager.py` lines 130-174):
connect to the port's manager, then run up to 3 status polls; the
address counts as occupied iff some poll yields a status other than
`OFFLINE`.  `poll attempt` is the outcome of the attempt-th
`get_pump_status` call, `none` modelling a raised exception (caught and
treated as a failed attempt). -/
def test_pump_connection (connect_ok : Bool) (poll : Nat → Option PumpStatus) : Bool :=
  connect_ok && (List.range 3).any fun attempt =>
    match poll attempt with
    | some s => s ≠ PumpStatus.OFFLINE
    | none => false

/-- The inner address loop of `PumpManager.discover_pumps`
(`pump_manager.py` lines 82-102): walk the candidate addresses on one
port, appending a fresh `PumpInfo` with the next pump id for each address
the connection test accepts, and advancing the id counter only then. -/
def scan_addresses (test : Nat → Bool) (com_port : String) :
    List Nat → Nat → List PumpInfo × Nat
  | [], next_id => ([], next_id)
  | address :: rest, next_id =>
    if test address then
      let (found, final_id) := scan_addresses test com_port rest (next_id + 1)
      (⟨next_id, com_port, address⟩ :: found, final_id)
    else
      scan_addresses test com_port rest next_id

/-- The outer port loop of `PumpManager.discover_pumps` (`pump_manager.py`
lines 75-106): scan each port's address range in turn, threading the
`_next_pump_id` counter. -/
def scan_ports (test : String → Nat → Bool) (addresses : List Nat) :
    List String → Nat → List PumpInfo × Nat
  | [], next_id => ([], next_id)
  | com_port :: rest, next_id =>
    let (found, next_id2) := scan_addresses (test com_port) com_port addresses next_id
    let (found2, next_id3) := scan_ports test addresses rest next_id2
    (found ++ found2, next_id3)

/-- The fields of `PumpDiscoveryResult` (`models.py` lines 94-99) that the
scan decides (scan duration and timestamp are wall-clock data). -/
structure DiscoveryOutcome where
  discovered_pumps : List PumpInfo
  total_found : Nat
deriving DecidableEq, Repr

/-- `PumpManager.discover_pumps` (`pump_manager.py` lines 28-128) on a
non-empty port list: test every address in `range(lo, hi + 1)` on every
port, and return the found pumps together with `total_found` set to the
length of that list.  `test port address` is the outcome of
`_test_pump_connection` for that pair and `start_id` the initial
`_next_pump_id`. -/
def discover_pumps (test : String → Nat → Bool) (ports : List String)
    (lo hi start_id : Nat) : DiscoveryOutcome :=
  let addresses := List.range' lo (hi + 1 - lo)
  let (found, _) := scan_ports test addresses ports start_id
  { discovered_pumps := found, total_found := found.length }

/-- The required fields of the `PumpDiscoveryResult` pydantic model
(`models.py` lines 94-99): every field is declared with `Field(...)`,
so all four are required. -/
def pump_discovery_result_required_fields : List String :=
  ["discovered_pumps", "total_found", "scan_duration", "timestamp"]

/-- The keyword arguments `PumpManager.discover_pumps` passes to
`PumpDiscoveryResult` on its empty-port early return (`pump_manager.py`
lines 66-71). -/
def discover_pumps_no_ports_kwargs : List String :=
  ["discovered_pumps", "total_found", "scan_duration", "scanned_ports"]

/-- Modelled from the spec: pydantic model construction validates that
every required field is supplied; the missing required fields are exactly
those not among the provided keyword arguments (extra keywords are
ignored by the default model config).  The pydantic library itself is
outside the repository. -/
def pydantic_missing_required (required provided : List String) : List String :=
  required.filter fun f => ¬ provided.contains f

/-- Modelled from the spec: constructing a pydantic model raises a
validation error iff some required field is missing. -/
def pydantic_construct_raises (required provided : List String) : Bool :=
  ¬ (pydantic_missing_required required provided).isEmpty

/-- The canonical worked-example transaction frame
`FF F8 E1 E0 E0 E0 E0 F6 E1 F9 E1 E2 E3 E0 E0 E0 FA E5 E0 E0 E0 E0 E0 F0`. -/
def exampleFrame : List Nat :=
  [0xFF, 0xF8, 0xE1, 0xE0, 0xE0, 0xE0, 0xE0, 0xF6, 0xE1, 0xF9, 0xE1, 0xE2,
   0xE3, 0xE0, 0xE0, 0xE0, 0xFA, 0xE5, 0xE0, 0xE0, 0xE0, 0xE0, 0xE0, 0xF0]

end Gilbarco

namespace Gilbarco

set_option maxRecDepth 8000

/-- Decidable equality for `Except`, so that concrete codec results can be
settled by `decide`. -/
def exceptDecEq {ε α : Type} [DecidableEq ε] [DecidableEq α] :
    (a b : Except ε α) → Decidable (a = b)
  | .ok a, .ok b =>
      if h : a = b then .isTrue (by rw [h]) else .isFalse (by simp [h])
  | .ok _, .error _ => .isFalse (by simp)
  | .error _, .ok _ => .isFalse (by simp)
  | .error e, .error f =>
      if h : e = f then .isTrue (by rw [h]) else .isFalse (by simp [h])

instance {ε α : Type} [DecidableEq ε] [DecidableEq α] : DecidableEq (Except ε α) :=
  exceptDecEq

/-- The spec's canonical StatusCode → DeviceState table, written from the
spec's words for comparison with `status_code_to_enum`: 0x0→Error,
0x6→Idle, 0x7→Calling, 0x8→Authorized, 0x9→Dispensing, 0xA→Complete,
0xB→Complete, 0xC→Stopped, 0xD→Error, any other value→Offline. -/
def status_to_state_spec (status_code : Nat) : PumpStatus :=
  if status_code = 0x0 then .ERROR
  else if status_code = 0x6 then .IDLE
  else if status_code = 0x7 then .CALLING
  else if status_code = 0x8 then .AUTHORIZED
  else if status_code = 0x9 then .DISPENSING
  else if status_code = 0xA then .COMPLETE
  else if status_code = 0xB then .COMPLETE
  else if status_code = 0xC then .STOPPED
  else if status_code = 0xD then .ERROR
  else .OFFLINE

/-- C1: decoding the canonical worked-example frame yields grade 1,
volume 321/1000 and money 5/100, each field being the sum of
`digit_i * 10^i` over its payload's low nibbles (least-significant digit
first) divided by the field's scale factor. -/
theorem claim_C1_worked_example_decodes :
    parse_transaction_data exampleFrame =
      some { pump_data := some [0xE1, 0xE0, 0xE0, 0xE0, 0xE0],
             grade := some 1,
             volume := some ((321 : ℚ) / 1000),
             money := some ((5 : ℚ) / 100),
             ppu := none } ∧
    parse_bcd_volume [0xE1, 0xE2, 0xE3, 0xE0, 0xE0, 0xE0] =
      ((1 * 10 ^ 0 + 2 * 10 ^ 1 + 3 * 10 ^ 2 : ℚ) / 1000) ∧
    parse_bcd_money [0xE5, 0xE0, 0xE0, 0xE0, 0xE0, 0xE0] = ((5 * 10 ^ 0 : ℚ) / 100) := by
  have hv : bcd_digit_sum [0xE1, 0xE2, 0xE3, 0xE0, 0xE0, 0xE0] = 321 := by decide
  have hm : bcd_digit_sum [0xE5, 0xE0, 0xE0, 0xE0, 0xE0, 0xE0] = 5 := by decide
  refine ⟨?_, ?_, ?_⟩
  · simp +decide [exampleFrame, parse_transaction_data, parse_transaction_loop,
      parse_bcd_volume, parse_bcd_money, hv, hm, DCW_ETX, DCW_STX, DCW_PUMP_ID_NEXT,
      DCW_GRADE_NEXT, DCW_VOLUME_NEXT, DCW_MONEY_NEXT, DCW_PPU_NEXT]
  · rw [parse_bcd_volume, hv]; norm_num
  · rw [parse_bcd_money, hm]; norm_num

/-- C2: on every 4-bit status code, `status_code_to_enum` agrees with the
spec's canonical table (0x0→Error, 0x6→Idle, 0x7→Calling, 0x8→Authorized,
0x9→Dispensing, 0xA→Complete, 0xB→Complete, 0xC→Stopped, 0xD→Error,
everything else→Offline); being a Lean function it is total and
deterministic. -/
theorem claim_C2_status_map_canonical :
    ∀ c : Fin 16, status_code_to_enum c.val = status_to_state_spec c.val := by
  decide

/-- C3: the address/nibble maps form a bijection between addresses
{1..16} and nibbles {0x0..0xF}: 16 encodes as 0, 1-15 encode as
themselves, and the two maps are mutually inverse on those ranges. -/
theorem claim_C3_address_nibble_bijection :
    pump_id_to_nibble 16 = .ok 0x0 ∧
    (∀ a, 1 ≤ a → a ≤ 15 → pump_id_to_nibble a = .ok a) ∧
    (∀ a, 1 ≤ a → a ≤ 16 →
      ∃ n, n ≤ 0xF ∧ pump_id_to_nibble a = .ok n ∧ nibble_to_pump_id n = .ok a) ∧
    (∀ n, n ≤ 0xF →
      ∃ a, 1 ≤ a ∧ a ≤ 16 ∧ nibble_to_pump_id n = .ok a ∧ pump_id_to_nibble a = .ok n) := by
  refine ⟨by decide, ?_, ?_, ?_⟩
  · intro a h1 h2
    interval_cases a <;> decide
  · intro a h1 h2
    refine ⟨if a = 16 then 0x0 else a, ?_, ?_, ?_⟩ <;> (interval_cases a <;> decide)
  · intro n h
    refine ⟨if n = 0 then 16 else n, ?_, ?_, ?_, ?_⟩ <;> (interval_cases n <;> decide)

/-- Witness for C3 at address 16 and nibble 0. -/
theorem claim_C3_address_nibble_bijection_witness :
    (1 ≤ 16 ∧ 16 ≤ 16 ∧
      ∃ n, n ≤ 0xF ∧ pump_id_to_nibble 16 = .ok n ∧ nibble_to_pump_id n = .ok 16) ∧
    (0 ≤ 0xF ∧
      ∃ a, 1 ≤ a ∧ a ≤ 16 ∧ nibble_to_pump_id 0 = .ok a ∧ pump_id_to_nibble a = .ok 0) :=
  ⟨⟨by decide, by decide,
      claim_C3_address_nibble_bijection.2.2.1 16 (by decide) (by decide)⟩,
    ⟨by decide, claim_C3_address_nibble_bijection.2.2.2 0 (by decide)⟩⟩

/-- C4: `parse_status_response` fails exactly on inputs whose length is
not 1; every 1-byte input decodes to the address given by the 1↔16/0 low
nibble mapping together with the high nibble as status code (so the
address-out-of-range branch is unreachable for 1-byte inputs), and in
particular `0x61` decodes to address 1 with status code 0x6, which is
`IDLE`. -/
theorem claim_C4_status_reply_failure_is_length :
    (∀ response : List Nat,
      (parse_status_response response).isOk = true ↔ response.length = 1) ∧
    (∀ b : Nat, parse_status_response [b] =
      .ok (if b &&& 0xF = 0 then 16 else b &&& 0xF, (b >>> 4) &&& 0xF)) ∧
    parse_status_response [0x61] = .ok (1, 0x6) ∧
    status_code_to_enum 0x6 = .IDLE := by
  have hbyte : ∀ b : Nat, parse_status_response [b] =
      .ok (if b &&& 0xF = 0 then 16 else b &&& 0xF, (b >>> 4) &&& 0xF) := by
    intro b
    have hle : b &&& 0xF ≤ 0xF := Nat.and_le_right
    by_cases h0 : b &&& 0xF = 0
    · simp [parse_status_response, nibble_to_pump_id, h0, Except.map]
    · have h1 : 1 ≤ b &&& 0xF := Nat.one_le_iff_ne_zero.mpr h0
      simp [parse_status_response, nibble_to_pump_id, h0, h1, hle, Except.map]
  refine ⟨?_, hbyte, ?_, by decide⟩
  · intro response
    match response with
    | [] => simp [parse_status_response, Except.isOk, Except.toBool]
    | [b] => simp [hbyte b, Except.isOk, Except.toBool]
    | b :: c :: rest => simp [parse_status_response, Except.isOk, Except.toBool]
  · have := hbyte 0x61
    simpa using this

/-- A 10-byte frame with STX, four grade sections, and a trailing volume
DCW whose declared 6-byte payload runs past the buffer end; it contains
no ETX byte anywhere. -/
def overrunFrame : List Nat :=
  [0xFF, 0xF6, 0xE1, 0xF6, 0xE2, 0xF6, 0xE3, 0xF6, 0xE4, 0xF9]

/-- C5 counterexample: `overrunFrame` never reaches an ETX and its last
declared payload runs past the buffer end, yet `parse_transaction_data`
does not fail: it returns a record with the grade field populated. -/
theorem claim_C5_counterexample :
    DCW_ETX ∉ overrunFrame ∧
    parse_transaction_data overrunFrame =
      some { pump_data := none, grade := some 4, volume := none,
             money := none, ppu := none } := by
  refine ⟨by decide, ?_⟩
  simp +decide [overrunFrame, parse_transaction_data, parse_transaction_loop,
    DCW_ETX, DCW_STX, DCW_PUMP_ID_NEXT, DCW_GRADE_NEXT, DCW_VOLUME_NEXT,
    DCW_MONEY_NEXT, DCW_PPU_NEXT]

/-- C5 (amended): `parse_transaction_data` returns `none` exactly when
the input is shorter than 10 bytes or does not start with STX; a declared
payload that would run past the buffer end is left unconsumed (the
parser continues at the byte after the DCW), a missing ETX merely ends
the scan at the buffer end with the partial fields collected, and an
unrecognized DCW is skipped by consuming exactly one payload byte. -/
theorem claim_C5_parse_failure_characterization :
    (∀ data : List Nat,
      parse_transaction_data data = none ↔ data.length < 10 ∨ data.headD 0 ≠ DCW_STX) ∧
    (∀ dcw rest result, dcw ≠ DCW_ETX → dcw ≠ DCW_PUMP_ID_NEXT → dcw ≠ DCW_GRADE_NEXT →
      dcw ≠ DCW_VOLUME_NEXT → dcw ≠ DCW_MONEY_NEXT → dcw ≠ DCW_PPU_NEXT →
      parse_transaction_loop (dcw :: rest) result = parse_transaction_loop (rest.drop 1) result) ∧
    (∀ rest result, rest.length < 5 →
      parse_transaction_loop (DCW_PUMP_ID_NEXT :: rest) result = parse_transaction_loop rest result) ∧
    (∀ rest result, rest.length < 6 →
      parse_transaction_loop (DCW_VOLUME_NEXT :: rest) result = parse_transaction_loop rest result) ∧
    (∀ rest result, rest.length < 6 →
      parse_transaction_loop (DCW_MONEY_NEXT :: rest) result = parse_transaction_loop rest result) ∧
    (∀ rest result, rest.length < 4 →
      parse_transaction_loop (DCW_PPU_NEXT :: rest) result = parse_transaction_loop rest result) := by
  refine ⟨?_, ?_, ?_, ?_, ?_, ?_⟩
  · intro data
    match data with
    | [] => simp [parse_transaction_data]
    | b :: rest =>
      rw [parse_transaction_data.eq_def]
      by_cases hlen : (b :: rest).length < 10
      · rw [if_pos hlen]
        exact iff_of_true rfl (Or.inl hlen)
      · rw [if_neg hlen]
        by_cases hstx : b = DCW_STX
        · simp [hstx]
          simp only [List.length_cons] at hlen
          omega
        · simp [hstx, hlen]
  · intro dcw rest result h1 h2 h3 h4 h5 h6
    rw [parse_transaction_loop.eq_def]
    simp [h1, h2, h3, h4, h5, h6]
  · intro rest result h
    rw [parse_transaction_loop.eq_def]
    have hn : ¬ 5 ≤ rest.length := by omega
    simp +decide [DCW_PUMP_ID_NEXT, DCW_ETX, hn]
  · intro rest result h
    rw [parse_transaction_loop.eq_def]
    have hn : ¬ 6 ≤ rest.length := by omega
    simp +decide [DCW_VOLUME_NEXT, DCW_ETX, DCW_PUMP_ID_NEXT, DCW_GRADE_NEXT, hn]
  · intro rest result h
    rw [parse_transaction_loop.eq_def]
    have hn : ¬ 6 ≤ rest.length := by omega
    simp +decide [DCW_MONEY_NEXT, DCW_ETX, DCW_PUMP_ID_NEXT, DCW_GRADE_NEXT,
      DCW_VOLUME_NEXT, hn]
  · intro rest result h
    rw [parse_transaction_loop.eq_def]
    have hn : ¬ 4 ≤ rest.length := by omega
    simp +decide [DCW_PPU_NEXT, DCW_ETX, DCW_PUMP_ID_NEXT, DCW_GRADE_NEXT,
      DCW_VOLUME_NEXT, DCW_MONEY_NEXT, hn]

/-- Witness for the amended C5 at concrete inputs: the unknown DCW `0xAB`
is skipped with one payload byte, and a volume DCW with a 2-byte
remainder leaves the position unchanged. -/
theorem claim_C5_parse_failure_characterization_witness :
    ((0xAB : Nat) ≠ DCW_ETX ∧ (0xAB : Nat) ≠ DCW_PUMP_ID_NEXT ∧
      (0xAB : Nat) ≠ DCW_GRADE_NEXT ∧ (0xAB : Nat) ≠ DCW_VOLUME_NEXT ∧
      (0xAB : Nat) ≠ DCW_MONEY_NEXT ∧ (0xAB : Nat) ≠ DCW_PPU_NEXT ∧
      parse_transaction_loop (0xAB :: [0xE1, 0xE2]) {} =
        parse_transaction_loop ([0xE1, 0xE2].drop 1) {}) ∧
    (([0xE1, 0xE2] : List Nat).length < 6 ∧
      parse_transaction_loop (DCW_VOLUME_NEXT :: [0xE1, 0xE2]) {} =
        parse_transaction_loop [0xE1, 0xE2] {}) :=
  ⟨⟨by decide, by decide, by decide, by decide, by decide, by decide,
      claim_C5_parse_failure_characterization.2.1 0xAB [0xE1, 0xE2] {}
        (by decide) (by decide) (by decide) (by decide) (by decide) (by decide)⟩,
    ⟨by decide,
      claim_C5_parse_failure_characterization.2.2.2.1 [0xE1, 0xE2] {} (by decide)⟩⟩

/-- C6: for every address 1-16 each addressed command serializes to the
single byte `(opcode << 4) | nibble(address)` with opcodes Status 0x0,
Authorize 0x1, Stop 0x3, TransactionRequest 0x4, while AllStop is the
fixed single byte 0xFC with no address. -/
theorem claim_C6_command_serialization (a : Nat) (h1 : 1 ≤ a) (h2 : a ≤ 16) :
    pump_id_to_nibble a = .ok (if a = 16 then 0x0 else a) ∧
    build_status_command a = .ok [(CMD_STATUS <<< 4) ||| (if a = 16 then 0x0 else a)] ∧
    build_authorize_command a = .ok [(CMD_AUTHORIZE <<< 4) ||| (if a = 16 then 0x0 else a)] ∧
    build_stop_command a = .ok [(CMD_STOP <<< 4) ||| (if a = 16 then 0x0 else a)] ∧
    build_transaction_request a = .ok [(CMD_TRANSACTION <<< 4) ||| (if a = 16 then 0x0 else a)] ∧
    build_all_stop_command = [0xFC] := by
  interval_cases a <;> decide

/-- Witness for C6 at addresses 7 and 16. -/
theorem claim_C6_command_serialization_witness :
    (1 ≤ 7 ∧ 7 ≤ 16 ∧ build_status_command 7 = .ok [0x07] ∧
      build_authorize_command 7 = .ok [0x17] ∧ build_stop_command 7 = .ok [0x37] ∧
      build_transaction_request 7 = .ok [0x47]) ∧
    (1 ≤ 16 ∧ 16 ≤ 16 ∧ build_status_command 16 = .ok [0x00] ∧
      build_all_stop_command = [0xFC]) := by
  have h7 := claim_C6_command_serialization 7 (by decide) (by decide)
  have h16 := claim_C6_command_serialization 16 (by decide) (by decide)
  refine ⟨⟨by decide, by decide, ?_, ?_, ?_, ?_⟩, ⟨by decide, by decide, ?_, h16.2.2.2.2.2⟩⟩
  · simpa using h7.2.1
  · simpa using h7.2.2.1
  · simpa using h7.2.2.2.1
  · simpa using h7.2.2.2.2.1
  · simpa using h16.2.1

/-- C9: every input shorter than 10 bytes is rejected by
`parse_transaction_data`, regardless of its content — an undocumented
minimum-length precondition of the transaction decoder. -/
theorem claim_C9_minimum_length_precondition (data : List Nat) (h : data.length < 10) :
    parse_transaction_data data = none := by
  unfold parse_transaction_data
  rw [if_pos h]

/-- Witness for C9 at a complete well-formed 4-byte frame
(STX, grade section, ETX). -/
theorem claim_C9_minimum_length_precondition_witness :
    ([0xFF, 0xF6, 0xE1, 0xF0] : List Nat).length < 10 ∧
    parse_transaction_data [0xFF, 0xF6, 0xE1, 0xF0] = none :=
  ⟨by decide, claim_C9_minimum_length_precondition [0xFF, 0xF6, 0xE1, 0xF0] (by decide)⟩

/-- C10: the empty-port early return of `discover_pumps` omits the
required `timestamp` field of `PumpDiscoveryResult`, so constructing the
model raises a validation error instead of returning an empty result. -/
theorem claim_C10_empty_port_early_return_raises :
    pydantic_construct_raises pump_discovery_result_required_fields
      discover_pumps_no_ports_kwargs = true ∧
    pydantic_missing_required pump_discovery_result_required_fields
      discover_pumps_no_ports_kwargs = ["timestamp"] ∧
    "timestamp" ∈ pump_discovery_result_required_fields ∧
    "timestamp" ∉ discover_pumps_no_ports_kwargs := by
  refine ⟨by decide, by decide, by decide, by decide⟩

/-- The address scan allocates the consecutive ids starting at the
incoming counter, and leaves the counter advanced by the number of pumps
found. -/
lemma scan_addresses_ids (test : Nat → Bool) (com_port : String) :
    ∀ (addrs : List Nat) (next_id : Nat),
      (scan_addresses test com_port addrs next_id).1.map (fun p => p.pump_id) =
        List.range' next_id (scan_addresses test com_port addrs next_id).1.length ∧
      (scan_addresses test com_port addrs next_id).2 =
        next_id + (scan_addresses test com_port addrs next_id).1.length := by
  intro addrs
  induction addrs with
  | nil => intro next_id; simp [scan_addresses]
  | cons a rest ih =>
    intro next_id
    by_cases h : test a
    · have := ih (next_id + 1)
      simp only [scan_addresses, h, if_true]
      obtain ⟨h1, h2⟩ := this
      constructor
      · simp [List.range'_succ, h1]
      · simp [h2]
        omega
    · simpa [scan_addresses, h] using ih next_id

/-- The port scan likewise allocates consecutive ids across ports. -/
lemma scan_ports_ids (test : String → Nat → Bool) (addresses : List Nat) :
    ∀ (ports : List String) (next_id : Nat),
      (scan_ports test addresses ports next_id).1.map (fun p => p.pump_id) =
        List.range' next_id (scan_ports test addresses ports next_id).1.length ∧
      (scan_ports test addresses ports next_id).2 =
        next_id + (scan_ports test addresses ports next_id).1.length := by
  intro ports
  induction ports with
  | nil => intro next_id; simp [scan_ports]
  | cons p rest ih =>
    intro next_id
    obtain ⟨ha1, ha2⟩ := scan_addresses_ids (test p) p addresses next_id
    obtain ⟨hp1, hp2⟩ :=
      ih (scan_addresses (test p) p addresses next_id).2
    simp only [scan_ports]
    constructor
    · rw [List.map_append, ha1, hp1, ha2, List.length_append]
      simp only [List.range'_append_1]
      congr 1
      omega
    · rw [List.length_append, hp2, ha2]
      omega

/-- C7: the connection test accepts a (port, address) pair iff the
connect succeeded and at least one of the 3 status polls yields a state
other than `OFFLINE`; discovery returns one record per accepted pair with
consecutively allocated fresh ids, its `total_found` always equals the
number of discovered records, and scanning addresses 1-3 on a line that
responds non-Offline only at address 2 yields exactly one device, at
address 2, with `total_found = 1`. -/
theorem claim_C7_discovery_occupancy_and_counts :
    (∀ (connect_ok : Bool) (poll : Nat → Option PumpStatus),
      test_pump_connection connect_ok poll = true ↔
        (connect_ok = true ∧
          ∃ attempt, attempt < 3 ∧
            ∃ s, poll attempt = some s ∧ s ≠ PumpStatus.OFFLINE)) ∧
    (∀ (test : String → Nat → Bool) (ports : List String) (lo hi start_id : Nat),
      (discover_pumps test ports lo hi start_id).total_found =
        (discover_pumps test ports lo hi start_id).discovered_pumps.length) ∧
    (∀ (test : String → Nat → Bool) (ports : List String) (lo hi start_id : Nat),
      (discover_pumps test ports lo hi start_id).discovered_pumps.map (fun p => p.pump_id) =
        List.range' start_id (discover_pumps test ports lo hi start_id).total_found) ∧
    discover_pumps
        (fun _ address => test_pump_connection true
          (fun _ => some (if address = 2 then PumpStatus.CALLING else PumpStatus.OFFLINE)))
        ["COM1"] 1 3 1 =
      { discovered_pumps := [⟨1, "COM1", 2⟩], total_found := 1 } := by
  refine ⟨?_, ?_, ?_, by decide⟩
  · intro connect_ok poll
    cases connect_ok with
    | false => simp [test_pump_connection]
    | true =>
      simp only [test_pump_connection, Bool.true_and, List.any_eq_true, List.mem_range,
        true_and]
      refine exists_congr fun attempt => and_congr_right fun _ => ?_
      cases h : poll attempt with
      | none => simp
      | some s => simp
  · intro test ports lo hi start_id
    simp only [discover_pumps]
  · intro test ports lo hi start_id
    obtain ⟨h1, _⟩ := scan_ports_ids test (List.range' lo (hi + 1 - lo)) ports start_id
    simpa [discover_pumps] using h1

/-- C8: `authorize_pump` succeeds exactly when the send went through and
the post-settle status poll decodes to `AUTHORIZED` or `DISPENSING`; any
internal failure (modelled by `send_ok = false`) yields `false` rather
than an exception. -/
theorem claim_C8_authorize_iff_status :
    ∀ (send_ok : Bool) (reply : Option (List Nat)),
      authorize_pump send_ok reply = true ↔
        (send_ok = true ∧
          (get_status_state reply = PumpStatus.AUTHORIZED ∨
            get_status_state reply = PumpStatus.DISPENSING)) := by
  intro send_ok reply
  cases send_ok with
  | false => simp [authorize_pump]
  | true =>
    simp only [authorize_pump, if_true, true_and]
    generalize get_status_state reply = s
    cases s <;> simp

end Gilbarco
